import Mathlib

/-!
# Verification of the mini action-game simulation core (`games.py`)

Shallow embedding of the per-frame simulation and combat-resolution logic of
the single-file action-game prototype: entity damage intake, the player
action state machine (movement, roll, light/heavy attack, stamina economy),
the enemy AI state machine (respawn, chase, melee, wander), and the
circle-overlap collision test.

Numbers are modelled by exact rationals `ℚ`; all source constants
(`0.26`, `0.45`, `1.6`, …) are exact decimal fractions, so every state
update of the source is represented exactly.  Randomness is passed in as an
explicit oracle record.  The source's Euclidean length appears only in
comparisons against thresholds and in vector normalization; comparisons are
rendered exactly on squared lengths, and normalization is modelled exactly
on the unit vectors the simulation feeds it (see `vnormalize`).
-/

namespace Games

/-- 2-D vectors (`pygame.Vector2`), componentwise over `ℚ`. -/
abbrev Vec := ℚ × ℚ

/-- Componentwise vector addition. -/
def vadd (a b : Vec) : Vec := (a.1 + b.1, a.2 + b.2)

/-- Componentwise vector subtraction. -/
def vsub (a b : Vec) : Vec := (a.1 - b.1, a.2 - b.2)

/-- Scalar multiple of a vector (`v * c` in the source). -/
def vscale (c : ℚ) (v : Vec) : Vec := (c * v.1, c * v.2)

/-- `Vector2.length_squared`. -/
def length_squared (v : Vec) : ℚ := v.1 ^ 2 + v.2 ^ 2

/-- `clamp(x, a, b) = max(a, min(b, x))` (games.py line 42). -/
def clamp (x a b : ℚ) : ℚ := max a (min b x)

/-- `length v < c` for the source's Euclidean length `length v = √(length_squared v)`,
rendered exactly on squares: since `length v ≥ 0`, `length v < c` holds iff
`0 < c` and `length_squared v < c²`. -/
def len_lt (v : Vec) (c : ℚ) : Prop := 0 < c ∧ length_squared v < c ^ 2

/-- `length v > c`, rendered exactly on squares: since `length v ≥ 0`,
`length v > c` holds iff `c < 0`, or `c² < length_squared v`. -/
def len_gt (v : Vec) (c : ℚ) : Prop := c < 0 ∨ c ^ 2 < length_squared v

instance (v : Vec) (c : ℚ) : Decidable (len_lt v c) := by unfold len_lt; infer_instance

instance (v : Vec) (c : ℚ) : Decidable (len_gt v c) := by unfold len_gt; infer_instance

/-- Square root on `ℚ`: exact on squares of nonnegative rationals
(`ratSqrt (x^2) = x` for `0 ≤ x`, see `ratSqrt_sq`), and a floor
approximation elsewhere.  It models the geometry library's real square
root; the simulation only ever normalizes vectors whose squared length is
a perfect rational square (unit facing vectors), and no property proved in
this file depends on its value off perfect squares. -/
def ratSqrt (q : ℚ) : ℚ := (Nat.sqrt q.num.toNat : ℚ) / (Nat.sqrt q.den : ℚ)

/-- `Vector2.normalize`: the vector scaled to unit length.  Division by
zero in `ℚ` yields `0`, harmlessly totalizing the zero-vector case that the
library would reject and that the simulation never reaches (facing vectors
are unit, and the chase direction is normalized only at positive distance). -/
def vnormalize (v : Vec) : Vec :=
  (v.1 / ratSqrt (length_squared v), v.2 / ratSqrt (length_squared v))

/- Arena and tuning constants (games.py lines 17–34). -/

def WIDTH : ℚ := 1920
def HEIGHT : ℚ := 1080
def PLAYER_SPEED : ℚ := 180
def ROLL_SPEED : ℚ := 420
def ATTACK_RANGE : ℚ := 48
def ATTACK_COOLDOWN : ℚ := 0.45
def ROLL_COOLDOWN : ℚ := 0.8
def INVULN_TIME : ℚ := 0.28
def STAMINA_MAX : ℚ := 100
def STAMINA_RECOVERY_RATE : ℚ := 20
def LIGHT_ATTACK_COST : ℚ := 12
def HEAVY_ATTACK_COST : ℚ := 28
def HEAVY_ATTACK_COOLDOWN : ℚ := 1.0
def ENEMY_SPEED : ℚ := 100
def ENEMY_DAMAGE : ℚ := 12

/-- Base entity state (games.py `Entity.__init__`, lines 50–58). -/
structure Entity where
  pos : Vec
  vel : Vec
  radius : ℚ
  hp : ℚ
  max_hp : ℚ
  alive : Bool
  invuln_timer : ℚ
deriving DecidableEq, Repr

/-- `Entity.__init__(pos, radius)`: hp and max_hp start at 100, alive, no
invulnerability (lines 51–58). -/
def Entity.init (pos : Vec) (radius : ℚ) : Entity :=
  { pos := pos, vel := (0, 0), radius := radius, hp := 100, max_hp := 100,
    alive := true, invuln_timer := 0 }

/-- `Entity.update_timers(dt)` (lines 59–61): the invulnerability timer, when
positive, is lowered by `dt` and floored at `0`. -/
def Entity.update_timers (e : Entity) (dt : ℚ) : Entity :=
  if 0 < e.invuln_timer then { e with invuln_timer := max 0 (e.invuln_timer - dt) } else e

/-- `Entity.take_damage(amount)` (lines 62–68): rejected (returns `false`,
no change) while invulnerable or dead; otherwise hp drops by `amount`, the
post-hit grace timer is set to `0.5`, and `alive` is cleared when the new hp
is `≤ 0`.  Returns whether the damage was applied, with the new state. -/
def Entity.take_damage (e : Entity) (amount : ℚ) : Bool × Entity :=
  if 0 < e.invuln_timer ∨ e.alive = false then (false, e)
  else
    let hp := e.hp - amount
    (true, { e with hp := hp, invuln_timer := 0.5,
                    alive := if hp ≤ 0 then false else e.alive })

/-- Player state (games.py `Player.__init__`, lines 74–86). -/
structure Player extends Entity where
  stamina : ℚ
  attack_timer : ℚ
  attack_cooldown : ℚ
  roll_timer : ℚ
  roll_cooldown : ℚ
  facing : Vec
  is_rolling : Bool
deriving DecidableEq, Repr

/-- `Player.__init__(pos)` (lines 75–86). -/
def Player.init (pos : Vec) : Player :=
  { Entity.init pos 16 with
    max_hp := 120, hp := 120, stamina := STAMINA_MAX,
    attack_timer := 0, attack_cooldown := 0, roll_timer := 0, roll_cooldown := 0,
    facing := (1, 0), is_rolling := false, invuln_timer := 0 }

/-- Per-frame input snapshot (spec §6 input contract).  `mv` is the movement
intent after the key scan of lines 90–97: the zero vector when no direction
is held, otherwise the held direction normalized (diagonals included) by the
input digest; `roll` is `keys[SPACE] or mouse_buttons[2]`, `light` is
`keys[J] or mouse_buttons[0]`, `heavy` is `keys[K]`. -/
structure Input where
  mv : Vec
  roll : Bool
  light : Bool
  heavy : Bool
deriving DecidableEq, Repr

/-- Facing update (lines 95–97): a nonzero movement intent becomes the new
facing (the source tests `mv.length_squared() > 0` before normalizing;
`Input.mv` is already the normalized intent). -/
def Player.faceStep (s : Player) (i : Input) : Player :=
  if 0 < length_squared i.mv then { s with facing := i.mv } else s

/-- Stamina regeneration (lines 99–100): unless rolling, stamina gains
`STAMINA_RECOVERY_RATE * dt`, clamped to `[0, STAMINA_MAX]`. -/
def Player.regenStep (s : Player) (dt : ℚ) : Player :=
  if s.is_rolling = false then
    { s with stamina := clamp (s.stamina + STAMINA_RECOVERY_RATE * dt) 0 STAMINA_MAX }
  else s

/-- Roll start (lines 102–109): off roll cooldown, roll pressed, and
stamina at least 20 — enter the roll: active window `0.26`, cooldown `0.8`,
invulnerability `0.28`, debit 20 stamina, velocity `facing * ROLL_SPEED`. -/
def Player.rollStep (s : Player) (i : Input) : Player :=
  if s.roll_cooldown ≤ 0 ∧ i.roll = true then
    if 20 ≤ s.stamina then
      { s with is_rolling := true, roll_timer := 0.26, roll_cooldown := ROLL_COOLDOWN,
               invuln_timer := INVULN_TIME, stamina := s.stamina - 20,
               vel := vscale ROLL_SPEED s.facing }
    else s
  else s

/-- Attack starts (lines 111–123): the light attack is checked first
(window `0.18`, cooldown `0.45`, cost 12), then the heavy attack against the
possibly-updated cooldown and stamina (window `0.34`, cooldown `1.0`,
cost 28).  Returns the new state and the `attacking` flag. -/
def Player.attackStep (s : Player) (i : Input) : Player × Bool :=
  let r :=
    if s.attack_cooldown ≤ 0 ∧ i.light = true then
      if LIGHT_ATTACK_COST ≤ s.stamina then
        ({ s with attack_timer := 0.18, attack_cooldown := ATTACK_COOLDOWN,
                  stamina := s.stamina - LIGHT_ATTACK_COST }, true)
      else (s, false)
    else (s, false)
  if r.1.attack_cooldown ≤ 0 ∧ i.heavy = true then
    if HEAVY_ATTACK_COST ≤ r.1.stamina then
      ({ r.1 with attack_timer := 0.34, attack_cooldown := HEAVY_ATTACK_COOLDOWN,
                  stamina := r.1.stamina - HEAVY_ATTACK_COST }, true)
    else r
  else r

/-- Timer decrements of the player frame (lines 125–135): attack timer,
attack cooldown, roll timer and roll cooldown are each, when positive,
lowered by `dt` and floored at `0`; when the roll timer lands exactly on
`0`, the roll ends and velocity is zeroed. -/
def Player.tickStep (s : Player) (dt : ℚ) : Player :=
  let s1 := if 0 < s.attack_timer then { s with attack_timer := max 0 (s.attack_timer - dt) } else s
  let s2 := if 0 < s1.attack_cooldown then
              { s1 with attack_cooldown := max 0 (s1.attack_cooldown - dt) } else s1
  let s3 :=
    if 0 < s2.roll_timer then
      let s' := { s2 with roll_timer := max 0 (s2.roll_timer - dt) }
      if s'.roll_timer = 0 then { s' with is_rolling := false, vel := (0, 0) } else s'
    else s2
  if 0 < s3.roll_cooldown then { s3 with roll_cooldown := max 0 (s3.roll_cooldown - dt) } else s3

/-- Movement blend and integration (lines 137–142): when neither rolling nor
attacking, velocity is blended toward `mv * PLAYER_SPEED` with factor
`clamp (10*dt) 0 1`; position advances by `vel * dt` and is clamped to the
arena with a 20-unit margin. -/
def Player.moveStep (s : Player) (i : Input) (dt : ℚ) (attacking : Bool) : Player :=
  let s' :=
    if s.is_rolling = false ∧ attacking = false then
      { s with vel := vadd s.vel (vscale (clamp (10 * dt) 0 1)
                                          (vsub (vscale PLAYER_SPEED i.mv) s.vel)) }
    else s
  let p := vadd s'.pos (vscale dt s'.vel)
  { s' with pos := (clamp p.1 20 (WIDTH - 20), clamp p.2 20 (HEIGHT - 20)) }

/-- The state at the roll attempt: timers advanced, facing updated, stamina
regenerated (lines 88–100, the prefix of `Player.update` before the roll
check). -/
def Player.preRoll (s : Player) (i : Input) (dt : ℚ) : Player :=
  (({ s with toEntity := s.toEntity.update_timers dt }).faceStep i).regenStep dt

/-- `Player.update(dt, keys, mouse_pos, mouse_buttons)` (lines 88–142),
as the composition of its phases in source order. -/
def Player.update (s : Player) (i : Input) (dt : ℚ) : Player :=
  let s1 := s.preRoll i dt
  let s2 := s1.rollStep i
  let r := s2.attackStep i
  let s3 := r.1.tickStep dt
  s3.moveStep i dt r.2

/-- `Player.attack_hitbox()` (lines 152–158): while the attack window is
open, a circle of radius `ATTACK_RANGE/1.6 = 30` centered
`radius + ATTACK_RANGE/2 = radius + 24` units ahead along the normalized
facing; otherwise none. -/
def Player.attack_hitbox (s : Player) : Option (Vec × ℚ) :=
  if 0 < s.attack_timer then
    some (vadd s.pos (vscale (s.radius + ATTACK_RANGE / 2) (vnormalize s.facing)),
          ATTACK_RANGE / 1.6)
  else none

/-- Enemy state (games.py `Enemy.__init__`, lines 160–167). -/
structure Enemy extends Entity where
  attack_cooldown : ℚ
  speed : ℚ
  respawn_time : ℚ
deriving DecidableEq, Repr

/-- `Enemy.__init__(pos)` (lines 161–167). -/
def Enemy.init (pos : Vec) : Enemy :=
  { Entity.init pos 16 with
    max_hp := 80, hp := 80, attack_cooldown := 0, speed := ENEMY_SPEED, respawn_time := 0 }

/-- Oracle for the random draws of one enemy frame: `respawn_draw` models
`random.uniform(3.0, 6.0)` (line 173), `wander_roll` models
`random.random()` (line 195), and `wander_dir` models the random unit
direction `(cos ang, sin ang)` (lines 196–197). -/
structure Rng where
  respawn_draw : ℚ
  wander_roll : ℚ
  wander_dir : Vec
deriving DecidableEq, Repr

/-- `Enemy.update(dt, player)` (lines 169–200).  Dead: seed or run the
respawn countdown (the decrement `respawn_time -= dt` carries no floor) and
revive at `≤ 0`.  Alive: within perception range (`dist < 300`) either chase
(outside melee reach) or melee the player off cooldown when the player is
vulnerable, and decrement the attack cooldown; out of range, wander with
damped velocity and an occasional random redirection.  The alive paths clamp
position to the arena margin.  Returns the enemy and the (possibly damaged)
player. -/
def Enemy.update (e : Enemy) (dt : ℚ) (p : Player) (rng : Rng) : Enemy × Player :=
  let e := { e with toEntity := e.toEntity.update_timers dt }
  if e.alive = false then
    if e.respawn_time ≤ 0 then ({ e with respawn_time := rng.respawn_draw }, p)
    else
      let e' := { e with respawn_time := e.respawn_time - dt }
      if e'.respawn_time ≤ 0 then ({ e' with alive := true, hp := e'.max_hp }, p)
      else (e', p)
  else
    let to_player := vsub p.pos e.pos
    if len_lt to_player 300 then
      let r : Enemy × Player :=
        if len_gt to_player (e.radius + p.radius + 6) then
          let e1 := { e with vel := vscale e.speed (vnormalize to_player) }
          ({ e1 with pos := vadd e1.pos (vscale dt e1.vel) }, p)
        else
          if e.attack_cooldown ≤ 0 ∧ p.invuln_timer ≤ 0 then
            ({ e with attack_cooldown := 1.0 },
             { p with toEntity := (p.toEntity.take_damage ENEMY_DAMAGE).2 })
          else (e, p)
      let e2 := if 0 < r.1.attack_cooldown then
                  { r.1 with attack_cooldown := max 0 (r.1.attack_cooldown - dt) } else r.1
      ({ e2 with pos := (clamp e2.pos.1 20 (WIDTH - 20), clamp e2.pos.2 20 (HEIGHT - 20)) }, r.2)
    else
      let e1 := { e with vel := vscale 0.9 e.vel }
      let e2 := if rng.wander_roll < 0.01 then
                  { e1 with vel := vscale (e1.speed * 0.5) rng.wander_dir } else e1
      let e3 := { e2 with pos := vadd e2.pos (vscale dt e2.vel) }
      ({ e3 with pos := (clamp e3.pos.1 20 (WIDTH - 20), clamp e3.pos.2 20 (HEIGHT - 20)) }, p)

/-- `circle_collide(a_pos, a_r, b_pos, b_r)` (lines 209–210): squared center
distance at most `(a_r + b_r)²`. -/
def circle_collide (a_pos : Vec) (a_r : ℚ) (b_pos : Vec) (b_r : ℚ) : Bool :=
  decide (length_squared (vsub a_pos b_pos) ≤ (a_r + b_r) ^ 2)

/-- The spec's uniform countdown contract (spec §4.1):
`advance(timer, dt) = max(0, timer - dt)`.  Stated from the spec's words,
for comparison with the per-field updates of the source. -/
def advanceSpec (timer dt : ℚ) : ℚ := max 0 (timer - dt)

/-- One player frame folded over a list of `(input, dt)` frames. -/
def runFrames (s : Player) (frames : List (Input × ℚ)) : Player :=
  frames.foldl (fun st f => st.update f.1 f.2) s

/-- A concrete dead enemy used in concrete evaluations: freshly spawned at
`(100, 100)`, then marked dead with half a second left on its respawn
countdown. -/
def deadEnemy : Enemy := { Enemy.init (100, 100) with alive := false, respawn_time := 0.5 }

/-- A concrete random oracle: respawn draw 4 s (inside `[3, 6]`), wander
roll 1 (so the 1% redirection does not fire), wander direction `(1, 0)`. -/
def rngA : Rng := { respawn_draw := 4, wander_roll := 1, wander_dir := (1, 0) }

/-! ## Basic lemmas -/

theorem advanceHelper (t dt : ℚ) (ht : 0 ≤ t) (hdt : 0 ≤ dt) :
    (if 0 < t then max 0 (t - dt) else t) = advanceSpec t dt := by
  unfold advanceSpec
  split_ifs with h
  · rfl
  · have h0 : t = 0 := le_antisymm (not_lt.1 h) ht
    rw [h0]
    exact (max_eq_left (by linarith)).symm

theorem update_timers_fields (en : Entity) (dt : ℚ) :
    (en.update_timers dt).alive = en.alive ∧ (en.update_timers dt).pos = en.pos ∧
    (en.update_timers dt).hp = en.hp ∧ (en.update_timers dt).vel = en.vel ∧
    (en.update_timers dt).radius = en.radius := by
  unfold Entity.update_timers
  split_ifs <;> simp

theorem clamp_nonneg (x b : ℚ) : 0 ≤ clamp x 0 b := le_max_left 0 _

theorem clamp_le_upper (x a b : ℚ) (h : a ≤ b) : clamp x a b ≤ b :=
  max_le h (min_le_left b x)

theorem ratSqrt_sq (x : ℚ) (hx : 0 ≤ x) : ratSqrt (x ^ 2) = x := by
  have hnum : (x ^ 2).num = x.num ^ 2 := by
    rw [sq, Rat.mul_self_num, sq]
  have hden : (x ^ 2).den = x.den ^ 2 := by
    rw [sq, Rat.mul_self_den, sq]
  unfold ratSqrt
  rw [hnum, hden]
  have hxnum : 0 ≤ x.num := Rat.num_nonneg.2 hx
  obtain ⟨n, hn⟩ := Int.eq_ofNat_of_zero_le hxnum
  rw [hn]
  have h1 : ((((n : ℤ) ^ 2).toNat.sqrt : ℕ) : ℚ) = (n : ℚ) := by
    rw [show ((n : ℤ) ^ 2) = ((n ^ 2 : ℕ) : ℤ) by push_cast; ring]
    rw [Int.toNat_natCast, Nat.sqrt_eq']
  have h2 : (((x.den ^ 2).sqrt : ℕ) : ℚ) = (x.den : ℚ) := by
    norm_num [Nat.sqrt_eq']
  rw [h1, h2]
  have h3 := Rat.num_div_den x
  rw [hn] at h3
  push_cast at h3 ⊢
  exact h3

theorem ratSqrt_one : ratSqrt 1 = 1 := by
  simp [ratSqrt]

theorem vnormalize_unit (v : Vec) (h : length_squared v = 1) : vnormalize v = v := by
  simp [vnormalize, h, ratSqrt_one]

/-! ## Entity damage intake (C1, C2, C10) -/

/-- Claim C1 counterexample: a full-health, alive, non-invulnerable entity
hit for 150 ends with hp = −50 < 0 — `take_damage` does not clamp hp at 0,
so hp does not stay in `[0, max_hp]`. -/
theorem take_damage_hp_negative_cex :
    (Entity.init (0, 0) 18).alive = true ∧
    (Entity.init (0, 0) 18).invuln_timer = 0 ∧
    ((Entity.init (0, 0) 18).take_damage 150).2.hp = -50 ∧
    ((Entity.init (0, 0) 18).take_damage 150).2.hp < 0 := by
  norm_num [Entity.init, Entity.take_damage]

/-- Claim C1 (amended): for a nonnegative damage amount, `take_damage` never
raises hp, so the upper bound `hp ≤ max_hp` is preserved; the lower bound 0
is not enforced (see the counterexample). -/
theorem take_damage_hp_le_max (e : Entity) (a : ℚ) (ha : 0 ≤ a)
    (hle : e.hp ≤ e.max_hp) :
    (e.take_damage a).2.hp ≤ e.max_hp ∧ (e.take_damage a).2.hp ≤ e.hp := by
  unfold Entity.take_damage
  split
  · exact ⟨hle, le_rfl⟩
  · constructor <;> simp <;> linarith

theorem take_damage_hp_le_max_wit :
    ((Entity.init (0, 0) 18).take_damage 30).2.hp ≤ (Entity.init (0, 0) 18).max_hp :=
  (take_damage_hp_le_max (Entity.init (0, 0) 18) 30 (by norm_num)
    (by norm_num [Entity.init])).1

/-- Claim C2: `take_damage` returns `false` and leaves the state unchanged
while invulnerable or dead; otherwise it returns `true`, subtracts the
amount from hp, sets the invulnerability timer to exactly `0.5`, and clears
`alive` exactly when the resulting hp is `≤ 0`. -/
theorem take_damage_spec (e : Entity) (a : ℚ) :
    (0 < e.invuln_timer ∨ e.alive = false → e.take_damage a = (false, e)) ∧
    (e.invuln_timer ≤ 0 → e.alive = true →
      e.take_damage a =
        (true, { e with hp := e.hp - a, invuln_timer := 0.5,
                        alive := if e.hp - a ≤ 0 then false else true }) ∧
      ((e.take_damage a).2.alive = false ↔ e.hp - a ≤ 0)) := by
  constructor
  · intro h
    unfold Entity.take_damage
    exact if_pos h
  · intro hI hA
    have hcond : ¬(0 < e.invuln_timer ∨ e.alive = false) := by
      push_neg
      exact ⟨hI, by simp [hA]⟩
    constructor
    · unfold Entity.take_damage
      rw [if_neg hcond, hA]
    · unfold Entity.take_damage
      rw [if_neg hcond]
      by_cases h : e.hp - a ≤ 0 <;> simp [h, hA]

theorem take_damage_spec_wit :
    ({ Entity.init (0, 0) 18 with invuln_timer := 0.3 }).take_damage 5 =
      (false, { Entity.init (0, 0) 18 with invuln_timer := 0.3 }) :=
  (take_damage_spec { Entity.init (0, 0) 18 with invuln_timer := 0.3 } 5).1
    (Or.inl (by norm_num [Entity.init]))

/-- Claim C10: a killing blow on an alive, vulnerable entity is applied,
sets the invulnerability timer to `0.5` while clearing `alive`, and each of
the two conditions then rejects all further damage on its own: the dead
state with the invulnerability zeroed still rejects, and the invulnerable
state with `alive` forced back to `true` still rejects. -/
theorem killing_blow_invuln (e : Entity) (a : ℚ)
    (hI : e.invuln_timer ≤ 0) (hA : e.alive = true) (hK : e.hp - a ≤ 0) :
    (e.take_damage a).1 = true ∧
    (e.take_damage a).2.invuln_timer = 0.5 ∧
    (e.take_damage a).2.alive = false ∧
    (∀ b, ((e.take_damage a).2).take_damage b = (false, (e.take_damage a).2)) ∧
    (∀ b, ({ (e.take_damage a).2 with invuln_timer := 0 }).take_damage b
            = (false, { (e.take_damage a).2 with invuln_timer := 0 })) ∧
    (∀ b, ({ (e.take_damage a).2 with alive := true }).take_damage b
            = (false, { (e.take_damage a).2 with alive := true })) := by
  have hcond : ¬(0 < e.invuln_timer ∨ e.alive = false) := by
    push_neg
    exact ⟨hI, by simp [hA]⟩
  have happ : e.take_damage a =
      (true, { e with hp := e.hp - a, invuln_timer := 0.5, alive := false }) := by
    unfold Entity.take_damage
    rw [if_neg hcond]
    simp [hK]
  rw [happ]
  refine ⟨rfl, rfl, rfl, ?_, ?_, ?_⟩
  · intro b
    unfold Entity.take_damage
    rw [if_pos (Or.inr rfl)]
  · intro b
    unfold Entity.take_damage
    rw [if_pos (Or.inr rfl)]
  · intro b
    unfold Entity.take_damage
    rw [if_pos (Or.inl (by norm_num))]

/-! ## Player frame lemmas -/

theorem preRoll_fields (s : Player) (i : Input) (dt : ℚ) :
    (s.preRoll i dt).roll_cooldown = s.roll_cooldown ∧
    (s.preRoll i dt).attack_cooldown = s.attack_cooldown ∧
    (s.preRoll i dt).is_rolling = s.is_rolling ∧
    (s.preRoll i dt).attack_timer = s.attack_timer ∧
    (s.preRoll i dt).facing = (if 0 < length_squared i.mv then i.mv else s.facing) ∧
    (s.preRoll i dt).stamina =
      (if s.is_rolling = false then
        clamp (s.stamina + STAMINA_RECOVERY_RATE * dt) 0 STAMINA_MAX
       else s.stamina) := by
  unfold Player.preRoll Player.faceStep Player.regenStep Entity.update_timers
  split_ifs <;> simp_all

theorem rollStep_stamina_bounds (s : Player) (i : Input)
    (h0 : 0 ≤ s.stamina) (h1 : s.stamina ≤ STAMINA_MAX) :
    0 ≤ (s.rollStep i).stamina ∧ (s.rollStep i).stamina ≤ STAMINA_MAX := by
  unfold Player.rollStep
  split_ifs with hg hs <;> simp_all [STAMINA_MAX] <;> linarith

theorem attackStep_stamina_bounds (s : Player) (i : Input)
    (h0 : 0 ≤ s.stamina) (h1 : s.stamina ≤ STAMINA_MAX) :
    0 ≤ (s.attackStep i).1.stamina ∧ (s.attackStep i).1.stamina ≤ STAMINA_MAX := by
  unfold Player.attackStep
  rw [STAMINA_MAX] at *
  norm_num [ATTACK_COOLDOWN, LIGHT_ATTACK_COST, HEAVY_ATTACK_COST, HEAVY_ATTACK_COOLDOWN]
  split_ifs <;> simp_all <;> first
    | linarith
    | exact ⟨by linarith, by linarith⟩

theorem tickStep_stamina (s : Player) (dt : ℚ) : (s.tickStep dt).stamina = s.stamina := by
  unfold Player.tickStep
  dsimp only
  split_ifs <;> rfl

theorem moveStep_stamina (s : Player) (i : Input) (dt : ℚ) (attacking : Bool) :
    (s.moveStep i dt attacking).stamina = s.stamina := by
  unfold Player.moveStep
  dsimp only
  split_ifs <;> rfl

theorem update_stamina_bounds (s : Player) (i : Input) (dt : ℚ)
    (h0 : 0 ≤ s.stamina) (h1 : s.stamina ≤ STAMINA_MAX) :
    0 ≤ (s.update i dt).stamina ∧ (s.update i dt).stamina ≤ STAMINA_MAX := by
  have hpre : 0 ≤ (s.preRoll i dt).stamina ∧ (s.preRoll i dt).stamina ≤ STAMINA_MAX := by
    rw [(preRoll_fields s i dt).2.2.2.2.2]
    split
    · exact ⟨clamp_nonneg _ _, clamp_le_upper _ _ _ (by norm_num [STAMINA_MAX])⟩
    · exact ⟨h0, h1⟩
  have hroll := rollStep_stamina_bounds (s.preRoll i dt) i hpre.1 hpre.2
  have hatk := attackStep_stamina_bounds ((s.preRoll i dt).rollStep i) i hroll.1 hroll.2
  unfold Player.update
  dsimp only
  rw [moveStep_stamina, tickStep_stamina]
  exact hatk

/-! ## Claims C3–C6: the player action state machine -/

/-- Claim C3 counterexample: from the freshly spawned player, one frame with
the roll and light-attack inputs both pressed starts the roll AND the light
attack — after the frame the player is rolling with an open attack window,
so the two action locks are not mutually exclusive. -/
theorem roll_attack_same_frame_cex :
    ((Player.init (960, 540)).update ⟨(0, 0), true, true, false⟩ 0).is_rolling = true ∧
    0 < ((Player.init (960, 540)).update ⟨(0, 0), true, true, false⟩ 0).attack_timer ∧
    ((Player.init (960, 540)).update ⟨(0, 0), true, true, false⟩ 0).roll_timer = 0.26 ∧
    ((Player.init (960, 540)).update ⟨(0, 0), true, true, false⟩ 0).attack_timer = 0.18 := by
  norm_num [Player.init, Entity.init, Player.update, Player.preRoll, Player.faceStep,
    Player.regenStep, Player.rollStep, Player.attackStep, Player.tickStep, Player.moveStep,
    Entity.update_timers, clamp, length_squared, STAMINA_MAX, STAMINA_RECOVERY_RATE,
    LIGHT_ATTACK_COST, ATTACK_COOLDOWN, ROLL_COOLDOWN, INVULN_TIME, ROLL_SPEED,
    HEAVY_ATTACK_COST, HEAVY_ATTACK_COOLDOWN, PLAYER_SPEED, WIDTH, HEIGHT, vadd, vsub, vscale]

/-- Claim C3 (amended): the roll and attack locks are NOT mutually
exclusive — whenever the roll and light-attack inputs are both pressed, the
roll cooldown and attack cooldown are both expired, and stamina at the
attempt covers both costs (≥ 32), the same frame starts the roll and the
light attack, debiting 32 stamina and leaving the player simultaneously
rolling and inside an active attack window. -/
theorem roll_and_attack_both_start (s : Player) (i : Input) (dt : ℚ)
    (hroll : i.roll = true) (hlight : i.light = true)
    (hrc : s.roll_cooldown ≤ 0) (hac : s.attack_cooldown ≤ 0)
    (hst : 32 ≤ (s.preRoll i dt).stamina) :
    (((s.preRoll i dt).rollStep i).attackStep i).1.is_rolling = true ∧
    (((s.preRoll i dt).rollStep i).attackStep i).1.roll_timer = 0.26 ∧
    (((s.preRoll i dt).rollStep i).attackStep i).1.attack_timer = 0.18 ∧
    (((s.preRoll i dt).rollStep i).attackStep i).2 = true ∧
    (((s.preRoll i dt).rollStep i).attackStep i).1.stamina = (s.preRoll i dt).stamina - 32 := by
  have hrc' : (s.preRoll i dt).roll_cooldown ≤ 0 := by
    rw [(preRoll_fields s i dt).1]; exact hrc
  have hac' : (s.preRoll i dt).attack_cooldown ≤ 0 := by
    rw [(preRoll_fields s i dt).2.1]; exact hac
  have hR : (s.preRoll i dt).rollStep i =
      { s.preRoll i dt with
        is_rolling := true, roll_timer := 0.26, roll_cooldown := ROLL_COOLDOWN,
        invuln_timer := INVULN_TIME, stamina := (s.preRoll i dt).stamina - 20,
        vel := vscale ROLL_SPEED (s.preRoll i dt).facing } := by
    unfold Player.rollStep
    rw [if_pos ⟨hrc', hroll⟩, if_pos (by linarith)]
  have hc1 : (s.preRoll i dt).attack_cooldown ≤ 0 ∧ i.light = true := ⟨hac', hlight⟩
  have hc2 : LIGHT_ATTACK_COST ≤ (s.preRoll i dt).stamina - 20 := by
    rw [LIGHT_ATTACK_COST]; linarith
  rw [hR]
  unfold Player.attackStep
  dsimp only
  simp only [if_pos hc1, if_pos hc2]
  rw [if_neg (show ¬(ATTACK_COOLDOWN ≤ 0 ∧ i.heavy = true) from by
        norm_num [ATTACK_COOLDOWN])]
  refine ⟨rfl, rfl, rfl, rfl, by dsimp only; rw [LIGHT_ATTACK_COST]; ring⟩

theorem roll_and_attack_both_start_wit :
    ((((Player.init (960, 540)).preRoll ⟨(0, 0), true, true, false⟩ 0).rollStep
        ⟨(0, 0), true, true, false⟩).attackStep ⟨(0, 0), true, true, false⟩).1.is_rolling
      = true :=
  (roll_and_attack_both_start (Player.init (960, 540)) ⟨(0, 0), true, true, false⟩ 0
    rfl rfl (by norm_num [Player.init, Entity.init]) (by norm_num [Player.init, Entity.init])
    (by norm_num [Player.init, Entity.init, Player.preRoll, Player.faceStep, Player.regenStep,
      Entity.update_timers, clamp, length_squared, STAMINA_MAX, STAMINA_RECOVERY_RATE])).1

/-- Claim C4: across any sequence of player frames, stamina stays inside
`[0, 100]`: regeneration is clamped to the maximum and every debit (roll 20,
light 12, heavy 28) is guarded by a sufficient-stamina check. -/
theorem stamina_in_range (frames : List (Input × ℚ)) (s : Player)
    (hdt : ∀ f ∈ frames, 0 ≤ f.2)
    (h0 : 0 ≤ s.stamina) (h1 : s.stamina ≤ 100) :
    0 ≤ (runFrames s frames).stamina ∧ (runFrames s frames).stamina ≤ 100 := by
  induction frames generalizing s with
  | nil => exact ⟨h0, h1⟩
  | cons f fs ih =>
    have hstep := update_stamina_bounds s f.1 f.2 h0 (by rw [STAMINA_MAX]; exact h1)
    have hrun : runFrames s (f :: fs) = runFrames (s.update f.1 f.2) fs := rfl
    rw [hrun]
    exact ih (s.update f.1 f.2) (fun g hg => hdt g (List.mem_cons_of_mem f hg)) hstep.1
      (by have := hstep.2; rw [STAMINA_MAX] at this; exact this)

theorem stamina_in_range_wit :
    0 ≤ (runFrames (Player.init (960, 540))
          [(⟨(0, 0), false, true, false⟩, 1/120)]).stamina ∧
    (runFrames (Player.init (960, 540)) [(⟨(0, 0), false, true, false⟩, 1/120)]).stamina ≤ 100 :=
  stamina_in_range [(⟨(0, 0), false, true, false⟩, 1/120)] (Player.init (960, 540))
    (by intro f hf; simp at hf; rw [hf]; norm_num)
    (by norm_num [Player.init, Entity.init, STAMINA_MAX])
    (by norm_num [Player.init, Entity.init, STAMINA_MAX])

/-- Claim C5: a roll starts in a frame exactly when the roll input is
pressed, the roll cooldown (which the pre-roll phases do not touch) is
expired, and stamina at the attempt is at least 20; on start, stamina drops
by exactly 20, the roll cooldown becomes `0.8`, the roll window `0.26`, the
invulnerability window `0.28`, `is_rolling` is set, and velocity becomes
`facing * 420`; when any condition fails the roll phase changes nothing. -/
theorem roll_start_iff (s : Player) (i : Input) (dt : ℚ) :
    (s.preRoll i dt).roll_cooldown = s.roll_cooldown ∧
    (s.roll_cooldown ≤ 0 ∧ i.roll = true ∧ 20 ≤ (s.preRoll i dt).stamina →
      (s.preRoll i dt).rollStep i =
        { s.preRoll i dt with
          is_rolling := true, roll_timer := 0.26, roll_cooldown := 0.8,
          invuln_timer := 0.28, stamina := (s.preRoll i dt).stamina - 20,
          vel := vscale 420 (s.preRoll i dt).facing }) ∧
    (¬(s.roll_cooldown ≤ 0 ∧ i.roll = true ∧ 20 ≤ (s.preRoll i dt).stamina) →
      (s.preRoll i dt).rollStep i = s.preRoll i dt) := by
  have hpc := (preRoll_fields s i dt).1
  refine ⟨hpc, ?_, ?_⟩
  · rintro ⟨h1, h2, h3⟩
    unfold Player.rollStep
    rw [if_pos ⟨by rw [hpc]; exact h1, h2⟩, if_pos h3]
    norm_num [ROLL_COOLDOWN, INVULN_TIME, ROLL_SPEED]
  · intro h
    unfold Player.rollStep
    split_ifs with hg hs
    · exact absurd ⟨hpc ▸ hg.1, hg.2, hs⟩ h
    · rfl
    · rfl

theorem roll_start_iff_wit :
    ((Player.init (960, 540)).preRoll ⟨(0, 0), true, false, false⟩ 0).rollStep
        ⟨(0, 0), true, false, false⟩ =
      { (Player.init (960, 540)).preRoll ⟨(0, 0), true, false, false⟩ 0 with
        is_rolling := true, roll_timer := 0.26, roll_cooldown := 0.8,
        invuln_timer := 0.28,
        stamina := ((Player.init (960, 540)).preRoll ⟨(0, 0), true, false, false⟩ 0).stamina - 20,
        vel := vscale 420
          (((Player.init (960, 540)).preRoll ⟨(0, 0), true, false, false⟩ 0)).facing } :=
  (roll_start_iff (Player.init (960, 540)) ⟨(0, 0), true, false, false⟩ 0).2.1
    ⟨by norm_num [Player.init, Entity.init], rfl,
     by norm_num [Player.init, Entity.init, Player.preRoll, Player.faceStep, Player.regenStep,
       Entity.update_timers, clamp, length_squared, STAMINA_MAX, STAMINA_RECOVERY_RATE]⟩

/-- Claim C6: the attack phase starts at most one attack — its result is
always exactly one of: unchanged (no start), the light start (window `0.18`,
cooldown `0.45`, stamina −12), or the heavy start (window `0.34`, cooldown
`1`, stamina −28); and whenever the light attack is off cooldown, pressed
and affordable it is the one that starts, whatever the heavy input says
(the light start raises the shared cooldown to `0.45 > 0`, which the heavy
check then fails). -/
theorem attack_start_exclusive (s : Player) (i : Input) :
    (s.attackStep i = (s, false) ∨
     s.attackStep i = ({ s with
       attack_timer := 0.18, attack_cooldown := 0.45, stamina := s.stamina - 12 }, true) ∨
     s.attackStep i = ({ s with
       attack_timer := 0.34, attack_cooldown := 1, stamina := s.stamina - 28 }, true)) ∧
    (s.attack_cooldown ≤ 0 → i.light = true → 12 ≤ s.stamina →
      s.attackStep i = ({ s with
        attack_timer := 0.18, attack_cooldown := 0.45, stamina := s.stamina - 12 }, true)) := by
  have hlight : ∀ h1 : s.attack_cooldown ≤ 0 ∧ i.light = true,
      ∀ h3 : LIGHT_ATTACK_COST ≤ s.stamina,
      s.attackStep i = ({ s with
        attack_timer := 0.18, attack_cooldown := 0.45, stamina := s.stamina - 12 }, true) := by
    intro h1 h3
    unfold Player.attackStep
    dsimp only
    simp only [if_pos h1, if_pos h3]
    rw [if_neg (show ¬(ATTACK_COOLDOWN ≤ 0 ∧ i.heavy = true) from by
          norm_num [ATTACK_COOLDOWN])]
    norm_num [ATTACK_COOLDOWN, LIGHT_ATTACK_COST]
  constructor
  · by_cases h1 : s.attack_cooldown ≤ 0 ∧ i.light = true
    · by_cases h3 : LIGHT_ATTACK_COST ≤ s.stamina
      · exact Or.inr (Or.inl (hlight h1 h3))
      · unfold Player.attackStep
        dsimp only
        simp only [if_pos h1, if_neg h3]
        by_cases h4 : s.attack_cooldown ≤ 0 ∧ i.heavy = true
        · by_cases h5 : HEAVY_ATTACK_COST ≤ s.stamina
          · refine Or.inr (Or.inr ?_)
            simp only [if_pos h4, if_pos h5]
            norm_num [HEAVY_ATTACK_COOLDOWN, HEAVY_ATTACK_COST]
          · exact Or.inl (by simp only [if_pos h4, if_neg h5])
        · exact Or.inl (by simp only [if_neg h4])
    · unfold Player.attackStep
      dsimp only
      simp only [if_neg h1]
      by_cases h4 : s.attack_cooldown ≤ 0 ∧ i.heavy = true
      · by_cases h5 : HEAVY_ATTACK_COST ≤ s.stamina
        · refine Or.inr (Or.inr ?_)
          simp only [if_pos h4, if_pos h5]
          norm_num [HEAVY_ATTACK_COOLDOWN, HEAVY_ATTACK_COST]
        · exact Or.inl (by simp only [if_pos h4, if_neg h5])
      · exact Or.inl (by simp only [if_neg h4])
  · intro ha hb hc
    exact hlight ⟨ha, hb⟩ (by rw [LIGHT_ATTACK_COST]; exact hc)

theorem attack_start_exclusive_wit :
    (Player.init (960, 540)).attackStep ⟨(0, 0), false, true, true⟩ =
      ({ Player.init (960, 540) with
         attack_timer := 0.18, attack_cooldown := 0.45,
         stamina := (Player.init (960, 540)).stamina - 12 }, true) :=
  (attack_start_exclusive (Player.init (960, 540)) ⟨(0, 0), false, true, true⟩).2
    (by norm_num [Player.init, Entity.init]) rfl
    (by norm_num [Player.init, Entity.init, STAMINA_MAX])

theorem killing_blow_invuln_wit :
    ((Entity.init (0, 0) 18).take_damage 150).2.invuln_timer = 0.5 ∧
    ((Entity.init (0, 0) 18).take_damage 150).2.alive = false :=
  ⟨(killing_blow_invuln (Entity.init (0, 0) 18) 150 (by norm_num [Entity.init])
      (by norm_num [Entity.init]) (by norm_num [Entity.init])).2.1,
   (killing_blow_invuln (Entity.init (0, 0) 18) 150 (by norm_num [Entity.init])
      (by norm_num [Entity.init]) (by norm_num [Entity.init])).2.2.1⟩

/-! ## Claims C7–C9: collision, hitbox geometry, countdown rules -/

theorem tickStep_attack_timer (s : Player) (dt : ℚ) :
    (s.tickStep dt).attack_timer =
      if 0 < s.attack_timer then max 0 (s.attack_timer - dt) else s.attack_timer := by
  unfold Player.tickStep
  dsimp only
  split_ifs <;> rfl

theorem tickStep_attack_cooldown (s : Player) (dt : ℚ) :
    (s.tickStep dt).attack_cooldown =
      if 0 < s.attack_cooldown then max 0 (s.attack_cooldown - dt) else s.attack_cooldown := by
  unfold Player.tickStep
  dsimp only
  split_ifs <;> rfl

theorem tickStep_roll_timer (s : Player) (dt : ℚ) :
    (s.tickStep dt).roll_timer =
      if 0 < s.roll_timer then max 0 (s.roll_timer - dt) else s.roll_timer := by
  unfold Player.tickStep
  dsimp only
  split_ifs <;> rfl

theorem tickStep_roll_cooldown (s : Player) (dt : ℚ) :
    (s.tickStep dt).roll_cooldown =
      if 0 < s.roll_cooldown then max 0 (s.roll_cooldown - dt) else s.roll_cooldown := by
  unfold Player.tickStep
  dsimp only
  split_ifs <;> rfl

/-- Claim C7: `circle_collide` is symmetric in its two circles and holds
exactly when the squared center distance is at most `(ra + rb)²`; in terms
of the center distance `d` (`d ≥ 0`, `d²` the squared distance), contact at
exactly `d = ra + rb` collides, and any strictly larger separation (with
nonnegative radii) does not. -/
theorem circle_collide_spec (a b : Vec) (ra rb d : ℚ) :
    circle_collide a ra b rb = circle_collide b rb a ra ∧
    (circle_collide a ra b rb = true ↔ length_squared (vsub a b) ≤ (ra + rb) ^ 2) ∧
    (0 ≤ d → length_squared (vsub a b) = d ^ 2 →
      (d = ra + rb → circle_collide a ra b rb = true) ∧
      (0 ≤ ra → 0 ≤ rb → ra + rb < d → circle_collide a ra b rb = false)) := by
  have hsym : length_squared (vsub a b) = length_squared (vsub b a) := by
    simp only [length_squared, vsub]
    ring
  refine ⟨?_, ?_, ?_⟩
  · unfold circle_collide
    rw [hsym, add_comm rb ra]
  · unfold circle_collide
    exact decide_eq_true_iff
  · intro hd0 hdsq
    constructor
    · intro hdr
      unfold circle_collide
      rw [hdsq, hdr]
      simp
    · intro hra hrb hlt
      unfold circle_collide
      rw [hdsq]
      have hsq : (ra + rb) ^ 2 < d ^ 2 := by nlinarith
      exact decide_eq_false (not_le.2 hsq)

theorem circle_collide_spec_wit :
    circle_collide (0, 0) 2 (3, 4) 3 = true :=
  ((circle_collide_spec (0, 0) (3, 4) 2 3 5).2.2 (by norm_num)
    (by norm_num [length_squared, vsub])).1 (by norm_num)

/-- Claim C8: for a unit facing vector, `attack_hitbox` yields a hitbox
exactly while the attack window is open, and that hitbox is the circle of
radius exactly 30 centered at the player position plus
`facing * (radius + 24)`; with the window closed there is no hitbox. -/
theorem attack_hitbox_spec (s : Player) (hface : length_squared s.facing = 1) :
    s.attack_hitbox =
      if 0 < s.attack_timer then
        some (vadd s.pos (vscale (s.radius + 24) s.facing), 30)
      else none := by
  unfold Player.attack_hitbox
  rw [vnormalize_unit s.facing hface]
  norm_num [ATTACK_RANGE]

theorem attack_hitbox_spec_wit :
    ({ Player.init (0, 0) with attack_timer := 0.18 }).attack_hitbox =
      some ((40, 0), 30) := by
  have h := attack_hitbox_spec { Player.init (0, 0) with attack_timer := 0.18 }
    (by norm_num [Player.init, Entity.init, length_squared])
  rw [h]
  norm_num [Player.init, Entity.init, vadd, vscale]

/-- Claim C9 counterexample: the enemy respawn countdown does not follow
`advance(timer, dt) = max(0, timer - dt)` — a dead enemy with half a second
left, stepped by `dt = 1`, ends with `respawn_time = -0.5`, not the `0` the
uniform rule prescribes. -/
theorem respawn_timer_rule_cex :
    deadEnemy.alive = false ∧ deadEnemy.respawn_time = 0.5 ∧
    (deadEnemy.update 1 (Player.init (960, 540)) rngA).1.respawn_time = -(0.5 : ℚ) ∧
    advanceSpec deadEnemy.respawn_time 1 = 0 ∧
    (deadEnemy.update 1 (Player.init (960, 540)) rngA).1.respawn_time ≠
      advanceSpec deadEnemy.respawn_time 1 := by
  norm_num [deadEnemy, Enemy.init, Entity.init, rngA, Enemy.update,
    Entity.update_timers, advanceSpec, Player.init]

/-- Claim C9 (amended): the entity invulnerability timer, the player attack
timer and cooldown, the roll timer and cooldown, and the enemy attack
cooldown (which only ticks while the player is inside the 300-unit
perception range) all follow the uniform rule
`advance(timer, dt) = max(0, timer - dt)` — the enemy melee reset to `1.0`
happening before the tick — but the enemy respawn countdown does not: a dead
enemy's `respawn_time` is decremented without the floor at 0. -/
theorem countdowns_advance (ent : Entity) (s : Player) (e : Enemy) (p : Player)
    (rng : Rng) (dt : ℚ) (hdt : 0 ≤ dt) :
    (0 ≤ ent.invuln_timer →
      (ent.update_timers dt).invuln_timer = advanceSpec ent.invuln_timer dt) ∧
    (0 ≤ s.attack_timer → (s.tickStep dt).attack_timer = advanceSpec s.attack_timer dt) ∧
    (0 ≤ s.attack_cooldown →
      (s.tickStep dt).attack_cooldown = advanceSpec s.attack_cooldown dt) ∧
    (0 ≤ s.roll_timer → (s.tickStep dt).roll_timer = advanceSpec s.roll_timer dt) ∧
    (0 ≤ s.roll_cooldown → (s.tickStep dt).roll_cooldown = advanceSpec s.roll_cooldown dt) ∧
    (e.alive = true → 0 ≤ e.attack_cooldown → len_lt (vsub p.pos e.pos) 300 →
      (e.update dt p rng).1.attack_cooldown =
        advanceSpec
          (if ¬ len_gt (vsub p.pos e.pos) (e.radius + p.radius + 6) ∧
              e.attack_cooldown ≤ 0 ∧ p.invuln_timer ≤ 0
           then 1 else e.attack_cooldown) dt) ∧
    (e.alive = false → 0 < e.respawn_time →
      (e.update dt p rng).1.respawn_time = e.respawn_time - dt) := by
  have hef := update_timers_fields e.toEntity dt
  refine ⟨?_, ?_, ?_, ?_, ?_, ?_, ?_⟩
  · intro h
    unfold Entity.update_timers advanceSpec
    split_ifs with hpos
    · rfl
    · have h0 : ent.invuln_timer = 0 := le_antisymm (not_lt.1 hpos) h
      rw [h0]
      exact (max_eq_left (by linarith)).symm
  · intro h
    rw [tickStep_attack_timer]
    exact advanceHelper _ _ h hdt
  · intro h
    rw [tickStep_attack_cooldown]
    exact advanceHelper _ _ h hdt
  · intro h
    rw [tickStep_roll_timer]
    exact advanceHelper _ _ h hdt
  · intro h
    rw [tickStep_roll_cooldown]
    exact advanceHelper _ _ h hdt
  · intro hal hcd0 hin
    unfold Enemy.update
    dsimp only
    rw [if_neg (show ¬((e.toEntity.update_timers dt).alive = false) from by
          rw [hef.1, hal]; simp)]
    rw [hef.2.1, hef.2.2.2.2]
    rw [if_pos hin]
    by_cases hchase : len_gt (vsub p.pos e.pos) (e.radius + p.radius + 6)
    · simp only [if_pos hchase]
      rw [if_neg (show ¬(¬ len_gt (vsub p.pos e.pos) (e.radius + p.radius + 6) ∧
            e.attack_cooldown ≤ 0 ∧ p.invuln_timer ≤ 0) from fun hc => hc.1 hchase)]
      split_ifs with h
      · dsimp only
        rfl
      · dsimp only
        have h0' : e.attack_cooldown = 0 := le_antisymm (not_lt.1 h) hcd0
        rw [h0']
        show (0 : ℚ) = max 0 (0 - dt)
        exact (max_eq_left (by linarith)).symm
    · simp only [if_neg hchase]
      by_cases hhit : e.attack_cooldown ≤ 0 ∧ p.invuln_timer ≤ 0
      · have hcondT : ¬ len_gt (vsub p.pos e.pos) (e.radius + p.radius + 6) ∧
            e.attack_cooldown ≤ 0 ∧ p.invuln_timer ≤ 0 := ⟨hchase, hhit.1, hhit.2⟩
        simp only [if_pos hhit]
        rw [if_pos hcondT]
        norm_num [advanceSpec]
      · simp only [if_neg hhit]
        rw [if_neg (show ¬(¬ len_gt (vsub p.pos e.pos) (e.radius + p.radius + 6) ∧
              e.attack_cooldown ≤ 0 ∧ p.invuln_timer ≤ 0) from
              fun hc => hhit ⟨hc.2.1, hc.2.2⟩)]
        split_ifs with h
        · dsimp only
          rfl
        · dsimp only
          have h0' : e.attack_cooldown = 0 := le_antisymm (not_lt.1 h) hcd0
          rw [h0']
          show (0 : ℚ) = max 0 (0 - dt)
          exact (max_eq_left (by linarith)).symm
  · intro hal hrt
    unfold Enemy.update
    dsimp only
    rw [if_pos (show (e.toEntity.update_timers dt).alive = false from by rw [hef.1, hal])]
    rw [if_neg (show ¬(e.respawn_time ≤ 0) from not_le.2 hrt)]
    split_ifs <;> rfl

theorem countdowns_advance_wit :
    ((Entity.init (0, 0) 18).update_timers 1).invuln_timer =
      advanceSpec (Entity.init (0, 0) 18).invuln_timer 1 ∧
    (deadEnemy.update 1 (Player.init (960, 540)) rngA).1.respawn_time =
      deadEnemy.respawn_time - 1 := by
  have h := countdowns_advance (Entity.init (0, 0) 18) (Player.init (0, 0)) deadEnemy
    (Player.init (960, 540)) rngA 1 (by norm_num)
  exact ⟨h.1 (by norm_num [Entity.init]),
    h.2.2.2.2.2.2 (by norm_num [deadEnemy, Enemy.init, Entity.init])
      (by norm_num [deadEnemy])⟩

end Games
